import Mathlib

/-!
Verification development for the RedZone Companion client
(`src/lib/api.ts`, `src/lib/storage.ts`,
`src/components/RedZoneView.tsx`, `src/components/AllLeaguesView.tsx`).

Times are modelled as milliseconds since the Unix epoch (`Nat`), with local
time taken to coincide with UTC (no DST shifts).  Week numbers are `Int`
because upstream JSON may carry arbitrary numbers.  JavaScript truthiness on
strings/numbers (empty string and `0` are falsy) is modelled explicitly.
-/

namespace RedZone

/-- One millisecond-count per hour. -/
def msPerHour : Nat := 60 * 60 * 1000

/-- JavaScript `Date.prototype.getHours` (local time = UTC): hour-of-day of
a millisecond timestamp. -/
def jsHourFromTime (t : Nat) : Nat := t / msPerHour % 24

/-- JavaScript `Date.prototype.setHours(h)` keeping minutes/seconds/ms:
replaces the hour-of-day by `h`; values of `h` at or above 24 roll over
into later days (ECMAScript `MakeDate (Day t) (MakeTime h min sec ms)`).
Fractional arguments are truncated toward zero by `ToIntegerOrInfinity`, so
the source calls `setHours(getHours() + 3.5)` and
`setHours(getHours() + 9.5)` are modelled as
`jsSetHours t (jsHourFromTime t + 3)` and
`jsSetHours t (jsHourFromTime t + 9)`. -/
def jsSetHours (t : Nat) (h : Nat) : Nat :=
  t - jsHourFromTime t * msPerHour + h * msPerHour

/-- Sleeper `/state/nfl` response (only the consumed field). -/
structure NFLState where
  week : Option Int
  deriving DecidableEq, Repr

/-- Week coercion `nflState.week || 1`: JavaScript `||` treats `undefined`
and `0` as falsy, so both coerce to 1; other numbers (negative included)
pass. -/
def jsWeekOr1 (w : Option Int) : Int :=
  match w with
  | none => 1
  | some x => if x = 0 then 1 else x

/-- One ESPN scoreboard event (consumed fields: kickoff date and week). -/
structure ESPNEvent where
  date : Nat
  week : Option Int
  deriving DecidableEq, Repr

/-- ESPN scoreboard (consumed fields). -/
structure Scoreboard where
  week : Option Int
  events : List ESPNEvent
  deriving DecidableEq, Repr

/-- Spread of a set, `[...new Set(xs)]`: deduplicate keeping first
occurrences. -/
def jsSetDedup (l : List Int) : List Int :=
  l.foldl (fun acc w => if w ∈ acc then acc else acc ++ [w]) []

/-- The week numbers present among the scheduled events
(`[...new Set(scoreboard.events.map(g => g.week?.number).filter(Boolean))]`),
with `undefined` and the falsy week `0` removed, deduplicated. -/
def gameWeeksOf (sb : Scoreboard) : List Int :=
  jsSetDedup (((sb.events.filterMap ESPNEvent.week).filter (fun w => w ≠ 0)))

/-- Model of `previousWeekGames.reduce((latest, game) => ...)`: pick the
event with the strictly greatest kickoff date, first element winning ties
(`Array.prototype.reduce` with no initial value; `none` on empty input,
where the source guards with `length > 0`). -/
def jsReduceLatest (l : List ESPNEvent) : Option ESPNEvent :=
  match l with
  | [] => none
  | g :: gs => some (gs.foldl (fun latest game =>
      if game.date > latest.date then game else latest) g)

/-- The week computation of `getEffectiveCurrentWeek` (src/lib/api.ts lines
36-65), seen on a cache miss once both upstream fetches succeeded. -/
def computeWeekA (st : NFLState) (sb : Scoreboard) (now : Nat) : Int :=
  let sleeperWeek := jsWeekOr1 st.week
  let gameWeeks := gameWeeksOf sb
  -- If Sleeper week doesn't match available games, use ESPN week
  let effectiveWeek0 : Int :=
    match sb.week with
    | some espnWeek =>
        if sleeperWeek ∉ gameWeeks ∧ espnWeek ≠ 0 ∧
            espnWeek ∈ gameWeeks then espnWeek else sleeperWeek
    | none => sleeperWeek
  -- Apply 6-hour delay logic for week transition
  let previousWeekGames := sb.events.filter (fun g => g.week = some (sleeperWeek - 1))
  match jsReduceLatest previousWeekGames with
  | some latestPreviousGame =>
      let gameEndTime := jsSetHours latestPreviousGame.date
        (jsHourFromTime latestPreviousGame.date + 3)
      let sixHoursAfterGame := gameEndTime + 6 * 60 * 60 * 1000
      if now < sixHoursAfterGame then sleeperWeek - 1 else effectiveWeek0
  | none => effectiveWeek0

/-- Memoized week value (`weekCalculationCache` in src/lib/api.ts). -/
structure WeekCache where
  timestamp : Nat
  week : Int
  deriving DecidableEq, Repr

def WEEK_CACHE_DURATION : Nat := 10 * 60 * 1000

/-- Errors thrown by the black-box fetch helpers and by `localStorage`. -/
inductive JsErr where
  | quota
  | other
  deriving DecidableEq, Repr

/-- Function `getEffectiveCurrentWeek` (src/lib/api.ts lines 22-79) as a
pure function of the upstream fetch outcomes.  `f1`/`fsb` are the two
`Promise.all` fetches, `f2` the fallback re-fetch of the Sleeper state
performed in the catch block; `now` is `Date.now()` in the try block and
`nowCatch` the (later) `Date.now()` in the catch block.  Returns the value
returned (or the propagated error) together with the memo left in
`weekCalculationCache`. -/
def getEffectiveCurrentWeekRun (f1 : Except JsErr NFLState)
    (fsb : Except JsErr Scoreboard) (f2 : Except JsErr NFLState)
    (cache : Option WeekCache) (now nowCatch : Nat) :
    Except JsErr Int × Option WeekCache :=
  match cache with
  | some c =>
      if now - c.timestamp < WEEK_CACHE_DURATION then (.ok c.week, some c)
      else
        match f1, fsb with
        | .ok st, .ok sb =>
            let w := computeWeekA st sb now
            (.ok w, some ⟨now, w⟩)
        | _, _ =>
            match f2 with
            | .ok st2 =>
                let fallbackWeek := jsWeekOr1 st2.week
                (.ok fallbackWeek, some ⟨nowCatch, fallbackWeek⟩)
            | .error e => (.error e, some c)
  | none =>
      match f1, fsb with
      | .ok st, .ok sb =>
          let w := computeWeekA st sb now
          (.ok w, some ⟨now, w⟩)
      | _, _ =>
          match f2 with
          | .ok st2 =>
              let fallbackWeek := jsWeekOr1 st2.week
              (.ok fallbackWeek, some ⟨nowCatch, fallbackWeek⟩)
          | .error e => (.error e, none)

/-- Result shape of `fetchFilteredCurrentWeekGames` (week and events). -/
structure FilteredScoreboard where
  week : Int
  events : List ESPNEvent
  deriving DecidableEq, Repr

/-- The cache-miss body of `fetchFilteredCurrentWeekGames` (src/lib/api.ts
lines 98-139): recomputes the effective week inline (with a single
`setHours(getHours() + 9.5)` offset) and filters the events by it, falling
back to the unfiltered events when the filter leaves nothing. -/
def fetchFilteredCompute (st : NFLState) (sb : Scoreboard) (now : Nat) :
    FilteredScoreboard :=
  let sleeperWeek := jsWeekOr1 st.week
  let gameWeeks := gameWeeksOf sb
  -- Use ESPN week if Sleeper week not available in games
  let effectiveWeek0 : Int :=
    match sb.week with
    | some espnWeek =>
        if sleeperWeek ∉ gameWeeks ∧ espnWeek ≠ 0 ∧
            espnWeek ∈ gameWeeks then espnWeek else sleeperWeek
    | none => sleeperWeek
  -- Apply 6-hour delay logic for week transition
  let previousWeekGames := sb.events.filter (fun g => g.week = some (sleeperWeek - 1))
  let effectiveWeek :=
    match jsReduceLatest previousWeekGames with
    | some latestPreviousGame =>
        -- Game start + 3.5 duration + 6 hour delay (9.5 truncated to 9)
        let gameEndTime := jsSetHours latestPreviousGame.date
          (jsHourFromTime latestPreviousGame.date + 9)
        if now < gameEndTime then sleeperWeek - 1 else effectiveWeek0
    | none => effectiveWeek0
  let filteredEvents := sb.events.filter (fun g => g.week = some effectiveWeek)
  ⟨effectiveWeek, if filteredEvents.length > 0 then filteredEvents else sb.events⟩

/-! Cache layer (src/lib/storage.ts). -/

def CACHE_DURATION : Nat := 30 * 60 * 1000

def DEBOUNCE_DELAY : Nat := 500

/-- Key list `STORAGE_KEYS` of src/lib/storage.ts (the values iterated by
`clearExpired` and `clearCache`). -/
def STORAGE_KEYS : List String :=
  ["redzone_games", "redzone_player_lineups", "redzone_game_config",
   "redzone_sleeper_players", "redzone_selected_game", "redzone_current_week",
   "redzone_current_view", "redzone_user_leagues", "redzone_hidden_leagues"]

/-- Envelope `CachedData`: written for every key. -/
structure CacheEntry (α : Type) where
  timestamp : Nat
  data : α
  deriving DecidableEq, Repr

/-- The cache layer's process state: the persistent store (`localStorage`,
restricted to well-formed envelopes), the per-key debounce map (key, timer
fire time, payload captured at `set` time), and a counter numbering the
physical `localStorage.setItem` attempts so a quota oracle can say which
attempts fail. -/
structure StorageState (α : Type) where
  items : List (String × CacheEntry α)
  pending : List (String × Nat × CacheEntry α)
  attempts : Nat
  deriving DecidableEq, Repr

def storeLookup {α : Type} (k : String) (items : List (String × CacheEntry α)) :
    Option (CacheEntry α) :=
  (items.find? (fun kv => kv.1 = k)).map Prod.snd

/-- Write `localStorage.setItem`: overwrite the value stored under `k`. -/
def storeInsert {α : Type} (k : String) (e : CacheEntry α)
    (items : List (String × CacheEntry α)) : List (String × CacheEntry α) :=
  items.filter (fun kv => kv.1 ≠ k) ++ [(k, e)]

/-- Model of `localStorage.removeItem`. -/
def storeErase {α : Type} (k : String) (items : List (String × CacheEntry α)) :
    List (String × CacheEntry α) :=
  items.filter (fun kv => kv.1 ≠ k)

/-- A physical `localStorage.setItem` attempt: the oracle decides from the
attempt number whether it succeeds or throws (quota or otherwise). -/
def trySetItem {α : Type} (oracle : Nat → Option JsErr) (s : StorageState α)
    (k : String) (e : CacheEntry α) : Option JsErr × StorageState α :=
  match oracle s.attempts with
  | none =>
      (none, { s with items := storeInsert k e s.items, attempts := s.attempts + 1 })
  | some err => (some err, { s with attempts := s.attempts + 1 })

/-- Sweep `storage.clearExpired`: walk the fixed key set and drop every
entry older than the TTL (other keys are untouched). -/
def storageClearExpiredItems {α : Type} (now : Nat)
    (items : List (String × CacheEntry α)) : List (String × CacheEntry α) :=
  items.filter (fun kv =>
    ¬ (kv.1 ∈ STORAGE_KEYS ∧ now - kv.2.timestamp > CACHE_DURATION))

/-- Read `storage.get`: fetch the envelope under `k`; an entry older than
the TTL is treated as absent and evicted on read.  Returns the value (or
`none`) and the store after the read. -/
def storageGet {α : Type} (now : Nat) (k : String) (s : StorageState α) :
    Option α × StorageState α :=
  match storeLookup k s.items with
  | none => (none, s)
  | some e =>
      if now - e.timestamp > CACHE_DURATION then
        (none, { s with items := storeErase k s.items })
      else (some e.data, s)

/-- Debounced `storage.set`: capture the timestamp now, cancel any pending
timer for `k` and schedule the physical write `DEBOUNCE_DELAY` ms later. -/
def storageSet {α : Type} (now : Nat) (k : String) (v : α) (s : StorageState α) :
    StorageState α :=
  { s with pending := s.pending.filter (fun kv => kv.1 ≠ k) ++
      [(k, now + DEBOUNCE_DELAY, ⟨now, v⟩)] }

/-- The body of the debounced timeout callback in `storage.set`: try the
write; on a quota error evict expired entries and retry once; a second
quota failure is logged and skipped (the `redzone_sleeper_players` branch
merely returns early where other keys fall through) and a non-quota error
is rethrown — but in the timer context a rethrow is swallowed by the event
loop, so the state outcome is the same.  The `finally` clause deletes the
debounce-map entry. -/
def fireCallback {α : Type} (oracle : Nat → Option JsErr) (now : Nat)
    (k : String) (entry : CacheEntry α) (s : StorageState α) : StorageState α :=
  let r1 := trySetItem oracle s k entry
  let s2 :=
    match r1.1 with
    | none => r1.2
    | some .quota =>
        let s1c := { r1.2 with items := storageClearExpiredItems now r1.2.items }
        let r2 := trySetItem oracle s1c k entry
        match r2.1 with
        | none => r2.2
        | some .quota => r2.2
        | some .other => r2.2
    | some .other => r1.2
  { s2 with pending := s2.pending.filter (fun kv => kv.1 ≠ k) }

/-- Fire every debounced write whose timer is due at `now`, in map order. -/
def flushDue {α : Type} (oracle : Nat → Option JsErr) (now : Nat)
    (s : StorageState α) : StorageState α :=
  (s.pending.filter (fun kv => kv.2.1 ≤ now)).foldl
    (fun st kv => fireCallback oracle now kv.1 kv.2.2 st) s

/-- Immediate write `storage.setImmediate`: the same write logic without
debouncing; here a rethrown error reaches the caller. -/
def storageSetImmediate {α : Type} (oracle : Nat → Option JsErr) (now : Nat)
    (k : String) (v : α) (s : StorageState α) : Except JsErr (StorageState α) :=
  let entry : CacheEntry α := ⟨now, v⟩
  let r1 := trySetItem oracle s k entry
  match r1.1 with
  | none => .ok r1.2
  | some .quota =>
      let s1c := { r1.2 with items := storageClearExpiredItems now r1.2.items }
      let r2 := trySetItem oracle s1c k entry
      match r2.1 with
      | none => .ok r2.2
      | some .quota =>
          -- For Sleeper players specifically the code logs and returns;
          -- every other key falls off the end of the catch block without a
          -- rethrow, so the quota failure is swallowed either way.
          if k = "redzone_sleeper_players" then .ok r2.2 else .ok r2.2
      | some .other => .error .other
  | some .other => .error .other

/-- The always-succeeding storage oracle (no quota pressure). -/
def oracleOk : Nat → Option JsErr := fun _ => none

/-! Sleeper data model and helpers (src/lib/api.ts, @/types). -/

structure SleeperUser where
  user_id : String
  display_name : String
  deriving DecidableEq, Repr

structure SleeperRoster where
  roster_id : Int
  owner_id : String
  starters : Option (List String)
  deriving DecidableEq, Repr

structure SleeperMatchup where
  roster_id : Int
  matchup_id : Int
  starters : Option (List String)
  deriving DecidableEq, Repr

/-- A `user_leagues` row from the relational store. -/
structure UserLeague where
  sleeper_league_id : String
  sleeper_user_id : Option String
  league_name : Option String
  custom_nickname : Option String
  deriving DecidableEq, Repr

/-- Bulk player reference record (consumed fields). -/
structure PlayerInfo where
  first_name : String
  last_name : String
  position : Option String
  team : Option String
  number : Option Int
  deriving DecidableEq, Repr

/-- The bulk `players[playerId]` table. -/
def PlayerTable : Type := List (String × PlayerInfo)

def playerLookup (players : PlayerTable) (pid : String) : Option PlayerInfo :=
  ((players : List (String × PlayerInfo)).find? (fun kv => kv.1 = pid)).map Prod.snd

/-- JavaScript `a || b` on optional strings: `undefined`/`null` and the
empty string are falsy. -/
def jsStrOr (a : Option String) (b : String) : String :=
  match a with
  | some x => if x = "" then b else x
  | none => b

/-- JavaScript truthiness of an optional string. -/
def jsTruthyStr (a : Option String) : Bool :=
  match a with
  | some x => x ≠ ""
  | none => false

/-- JavaScript `a || b` where `a` is an optional array: even an empty array
is truthy, so only `undefined`/`null` falls back. -/
def jsOrOpt {γ : Type} (a b : Option γ) : Option γ :=
  match a with
  | some x => some x
  | none => b

/-- Helper `findUserRoster` (src/lib/api.ts lines 226-228). -/
def findUserRoster (rosters : List SleeperRoster) (sleeperUserId : String) :
    Option SleeperRoster :=
  rosters.find? (fun r => r.owner_id = sleeperUserId)

/-- Helper `findOpponentRoster` (src/lib/api.ts lines 244-261). -/
def findOpponentRoster (rosters : List SleeperRoster)
    (matchups : List SleeperMatchup) (userRosterId : Int) :
    Option SleeperRoster :=
  match matchups.find? (fun m => m.roster_id = userRosterId) with
  | none => none
  | some userMatchup =>
      match matchups.find? (fun m =>
          m.matchup_id = userMatchup.matchup_id ∧ m.roster_id ≠ userRosterId) with
      | none => none
      | some opponentMatchup =>
          rosters.find? (fun r => r.roster_id = opponentMatchup.roster_id)

/-! Cross-league lineup aggregator (RedZoneView.fetchAllLineups). -/

/-- Output unit `PlayerLineup` of the aggregator; the scalar
`leagueId`/`leagueName` fields come from the object spread of the first
inserting league. -/
structure PlayerLineup where
  playerId : String
  name : String
  position : String
  team : String
  jerseyNumber : String
  leagueId : String
  leagueName : String
  leagueIds : List String
  leagueNames : List String
  isOpponent : Bool
  deriving DecidableEq, Repr

/-- The merge identity of an output entry. -/
def entryKey (e : PlayerLineup) : String × Bool × String :=
  (e.playerId, e.isOpponent, e.team)

/-- The `playerData` candidate built for one starter id. -/
def mkPlayerData (league : UserLeague) (pid : String) (p : PlayerInfo)
    (isOpp : Bool) : PlayerLineup :=
  { playerId := pid
    name := p.first_name ++ " " ++ p.last_name
    position := jsStrOr p.position "N/A"
    team := jsStrOr p.team "FA"
    jerseyNumber := match p.number with | some n => toString n | none => ""
    leagueId := league.sleeper_league_id
    leagueName := jsStrOr league.custom_nickname (jsStrOr league.league_name "League")
    leagueIds := [league.sleeper_league_id]
    leagueNames := [jsStrOr league.custom_nickname (jsStrOr league.league_name "League")]
    isOpponent := isOpp }

/-- The merge step: scan the output built so far for the first entry with
the same `(playerId, isOpponent, team)` triple (`findIndex`); append the
candidate's league id and name to it, or push the candidate at the end. -/
def mergeStarter (cand : PlayerLineup) : List PlayerLineup → List PlayerLineup
  | [] => [cand]
  | e :: rest =>
      if e.playerId = cand.playerId ∧ e.isOpponent = cand.isOpponent ∧
          e.team = cand.team then
        { e with leagueIds := e.leagueIds ++ cand.leagueIds,
                 leagueNames := e.leagueNames ++ cand.leagueNames } :: rest
      else e :: mergeStarter cand rest

/-- Body of the per-starter loop: skip falsy player ids and ids missing
from the player table, otherwise merge the candidate. -/
def addStarter (players : PlayerTable) (league : UserLeague) (isOpp : Bool)
    (acc : List PlayerLineup) (playerId : String) : List PlayerLineup :=
  if playerId ≠ "" then
    match playerLookup players playerId with
    | some p => mergeStarter (mkPlayerData league playerId p isOpp) acc
    | none => acc
  else acc

/-- The data the three per-league provider calls return (league users are
fetched but unused by `RedZoneView.fetchAllLineups`). -/
structure LeagueData where
  league : UserLeague
  rosters : List SleeperRoster
  users : List SleeperUser
  matchups : List SleeperMatchup
  deriving DecidableEq, Repr

/-- One iteration of the per-league loop of
`RedZoneView.fetchAllLineups` (src/components/RedZoneView.tsx lines
58-157): skip the league when it has no stored Sleeper user id or no
matching roster, resolve the opponent, then merge the user's and (when
present) the opponent's roster starters into the accumulator. -/
def processLeague (players : PlayerTable) (acc : List PlayerLineup)
    (d : LeagueData) : List PlayerLineup :=
  match d.league.sleeper_user_id with
  | none => acc
  | some uid =>
      if uid = "" then acc
      else
        match findUserRoster d.rosters uid with
        | none => acc
        | some userRoster =>
            let opponentRoster :=
              findOpponentRoster d.rosters d.matchups userRoster.roster_id
            let acc1 :=
              match userRoster.starters with
              | some starters =>
                  starters.foldl (addStarter players d.league false) acc
              | none => acc
            match opponentRoster with
            | some opp =>
                match opp.starters with
                | some starters =>
                    starters.foldl (addStarter players d.league true) acc1
                | none => acc1
            | none => acc1

/-- Aggregator `RedZoneView.fetchAllLineups`: process the configured
leagues in order, starting from an empty output. -/
def fetchAllLineups (players : PlayerTable) (datas : List LeagueData) :
    List PlayerLineup :=
  datas.foldl (processLeague players) []

/-- The two aggregator invariants together: key-distinctness and equal
league id/name list lengths. -/
def GoodLineups (l : List PlayerLineup) : Prop :=
  l.Pairwise (fun a b => entryKey a ≠ entryKey b) ∧
    ∀ e ∈ l, e.leagueIds.length = e.leagueNames.length

/-- Dedup scenario data: two leagues whose user rosters both start player
`"P"` (team `NE`). -/
def c1players : PlayerTable :=
  [("P", ⟨"Tom", "Brady", some "QB", some "NE", some 12⟩)]

def c1datas : List LeagueData :=
  [⟨⟨"L1", some "U1", some "League One", none⟩, [⟨1, "U1", some ["P"]⟩], [],
      [⟨1, 10, none⟩]⟩,
    ⟨⟨"L2", some "U2", some "League Two", none⟩, [⟨1, "U2", some ["P"]⟩], [],
      []⟩]

/-! Per-league lineup view (AllLeaguesView.fetchAllLeagueLineups). -/

/-- One resolved starter in the all-leagues view. -/
structure StarterData where
  playerId : String
  name : String
  position : String
  team : String
  jerseyNumber : String
  deriving DecidableEq, Repr

/-- One side of a matchup in the all-leagues view. -/
structure RosterSide where
  rosterId : Int
  owner : String
  starters : List StarterData
  deriving DecidableEq, Repr

/-- Record `LeagueLineup` of src/components/AllLeaguesView.tsx. -/
structure LeagueLineup where
  leagueId : String
  leagueName : String
  userRoster : RosterSide
  opponentRoster : Option RosterSide
  matchupId : Option Int
  deriving DecidableEq, Repr

/-- Resolve each starter id against the player table
(`actualStarters?.map(...).filter(Boolean) || []`), dropping falsy ids and
unknown players. -/
def buildStarterData (players : PlayerTable) (starters : Option (List String)) :
    List StarterData :=
  match starters with
  | none => []
  | some l =>
      l.filterMap (fun pid =>
        if pid ≠ "" then
          (playerLookup players pid).map (fun p =>
            ⟨pid, p.first_name ++ " " ++ p.last_name, jsStrOr p.position "N/A",
              jsStrOr p.team "FA",
              match p.number with | some n => toString n | none => ""⟩)
        else none)

/-- One iteration of the per-league loop of
`AllLeaguesView.fetchAllLeagueLineups` (src/components/AllLeaguesView.tsx
lines 77-166); `none` when the league is skipped.  Matchup-level starters
are preferred over roster-level starters (`userMatchup?.starters ||
userRoster.starters`, where even an empty array is truthy). -/
def fetchLeagueLineup (players : PlayerTable) (d : LeagueData) :
    Option LeagueLineup :=
  match d.league.sleeper_user_id with
  | none => none
  | some uid =>
      if uid = "" then none
      else
        match findUserRoster d.rosters uid with
        | none => none
        | some userRoster =>
            let userMatchup :=
              d.matchups.find? (fun m => m.roster_id = userRoster.roster_id)
            let opponentRoster :=
              findOpponentRoster d.rosters d.matchups userRoster.roster_id
            let opponentMatchup : Option SleeperMatchup :=
              match userMatchup with
              | some um => d.matchups.find? (fun m =>
                  m.matchup_id = um.matchup_id ∧
                    m.roster_id ≠ userRoster.roster_id)
              | none => none
            let userOwner := jsStrOr
              ((d.users.find? (fun u => u.user_id = userRoster.owner_id)).map
                SleeperUser.display_name) "You"
            let actualUserStarters :=
              jsOrOpt (userMatchup.bind SleeperMatchup.starters) userRoster.starters
            let actualOpponentStarters :=
              jsOrOpt (opponentMatchup.bind SleeperMatchup.starters)
                (opponentRoster.bind SleeperRoster.starters)
            some
              { leagueId := d.league.sleeper_league_id
                leagueName := jsStrOr d.league.custom_nickname
                  (jsStrOr d.league.league_name "League")
                userRoster := ⟨userRoster.roster_id, userOwner,
                  buildStarterData players actualUserStarters⟩
                opponentRoster :=
                  match opponentRoster with
                  | some opp => some ⟨opp.roster_id,
                      jsStrOr ((d.users.find? (fun u =>
                          u.user_id = opp.owner_id)).map
                        SleeperUser.display_name) "Opponent",
                      buildStarterData players actualOpponentStarters⟩
                  | none => none
                matchupId :=
                  match userMatchup with
                  | some um =>
                      if um.matchup_id = 0 then none else some um.matchup_id
                  | none => none }

/-- Forget the matchup-level starters lists of a league's matchup records,
keeping their roster and pairing ids. -/
def stripMatchupStarters (d : LeagueData) : LeagueData :=
  ⟨d.league, d.rosters, d.users,
    d.matchups.map (fun m => (⟨m.roster_id, m.matchup_id, none⟩ : SleeperMatchup))⟩

/-- A league whose matchup record carries live starters (`"P1"`) while the
roster's own starters list still holds the stale `"P2"`. -/
def c4players : PlayerTable :=
  [("P1", ⟨"Matt", "Live", some "QB", some "KC", none⟩),
    ("P2", ⟨"Rob", "Stale", some "RB", some "DAL", none⟩)]

def c4data : LeagueData :=
  ⟨⟨"L1", some "U1", some "League One", none⟩, [⟨1, "U1", some ["P2"]⟩], [],
    [⟨1, 10, some ["P1"]⟩]⟩

/-! Game/view filter (RedZoneView.applyGameConfiguration). -/

/-- An ESPN game as the filter consumes it (only its id matters; object
identity in `games.indexOf(game)` is modelled as structural equality). -/
structure ESPNGameL where
  id : String
  deriving DecidableEq, Repr

/-- Record `GameConfig` of src/lib/storage.ts. -/
structure GameConfig where
  gameId : String
  isVisible : Bool
  customOrder : Int
  customLabel : Option String
  deriving DecidableEq, Repr

/-- Lookup in `new Map(gameConfig.map(c => [c.gameId, c]))`: a JavaScript
`Map` built from an entry list keeps the last entry for a duplicated key. -/
def jsConfigMapGet (gameConfig : List GameConfig) (gid : String) :
    Option GameConfig :=
  gameConfig.reverse.find? (fun c => c.gameId = gid)

/-- Model of `games.indexOf(game)`: index of the first structurally equal
element, `-1` when absent. -/
def jsIndexOf (games : List ESPNGameL) (g : ESPNGameL) : Int :=
  match games.findIdx? (fun x => x = g) with
  | some i => (i : Int)
  | none => -1

/-- The per-game config resolution: the stored config, or the default
(visible, order = position in the unfiltered list). -/
def resolveConfig (games : List ESPNGameL) (gameConfig : List GameConfig)
    (game : ESPNGameL) : GameConfig :=
  match jsConfigMapGet gameConfig game.id with
  | some c => c
  | none => ⟨game.id, true, jsIndexOf games game, none⟩

/-- Filter `applyGameConfiguration` (src/components/RedZoneView.tsx lines
276-301): empty game list ⇒ empty; empty config ⇒ all games; otherwise
resolve each game's config, keep the visible ones and stable-sort them by
`customOrder` ascending. -/
def applyGameConfiguration (games : List ESPNGameL)
    (gameConfig : List GameConfig) : List ESPNGameL :=
  if games.length = 0 then []
  else if gameConfig.length = 0 then games
  else
    (((games.map (fun game => (game, resolveConfig games gameConfig game))).filter
        (fun gc => gc.2.isVisible)).mergeSort
      (fun a b => a.2.customOrder ≤ b.2.customOrder)).map (fun gc => gc.1)

/-! Supporting lemmas. -/

theorem jsHour_mul_le (t : Nat) : jsHourFromTime t * msPerHour ≤ t := by
  calc jsHourFromTime t * msPerHour ≤ t / msPerHour * msPerHour := by
        exact Nat.mul_le_mul_right _ (Nat.mod_le _ _)
    _ ≤ t := Nat.div_mul_le_self t msPerHour

theorem jsSetHours_add (t k : Nat) :
    jsSetHours t (jsHourFromTime t + k) = t + k * msPerHour := by
  have h := jsHour_mul_le t
  unfold jsSetHours
  rw [Nat.add_mul]
  omega

/-- The two grace-window computations coincide: starting 3 (truncated from
3.5) hours after kickoff and adding six hours lands exactly 9 (truncated
from 9.5) hours after kickoff. -/
theorem jsSetHours_three_plus_six (t : Nat) :
    jsSetHours t (jsHourFromTime t + 3) + 6 * 60 * 60 * 1000 =
      jsSetHours t (jsHourFromTime t + 9) := by
  rw [jsSetHours_add, jsSetHours_add]
  unfold msPerHour
  omega

theorem mem_jsSetDedup_foldl (l : List Int) (acc : List Int) (x : Int) :
    (x ∈ l.foldl (fun a w => if w ∈ a then a else a ++ [w]) acc) ↔
      x ∈ acc ∨ x ∈ l := by
  induction l generalizing acc with
  | nil => simp
  | cons w l ih =>
    simp only [List.foldl_cons, ih, List.mem_cons]
    by_cases hw : w ∈ acc
    · simp only [if_pos hw]
      constructor
      · rintro (h | h) <;> tauto
      · rintro (h | h | h)
        · tauto
        · subst h; exact Or.inl hw
        · tauto
    · simp only [if_neg hw, List.mem_append, List.mem_singleton]
      tauto

theorem mem_jsSetDedup (l : List Int) (x : Int) :
    x ∈ jsSetDedup l ↔ x ∈ l := by
  unfold jsSetDedup
  rw [mem_jsSetDedup_foldl]
  simp

theorem jsReduceLatest_mem_aux (xs : List ESPNEvent) (acc : ESPNEvent) :
    xs.foldl (fun latest game => if game.date > latest.date then game else latest)
        acc = acc ∨
      xs.foldl (fun latest game => if game.date > latest.date then game else latest)
        acc ∈ xs := by
  induction xs generalizing acc with
  | nil => left; rfl
  | cons b bs ih =>
    simp only [List.foldl_cons]
    rcases ih (if b.date > acc.date then b else acc) with h | h
    · rw [h]
      by_cases hb : b.date > acc.date
      · right; simp [hb]
      · left; simp [hb]
    · right; exact List.mem_cons_of_mem _ h

theorem jsReduceLatest_mem {l : List ESPNEvent} {g : ESPNEvent}
    (h : jsReduceLatest l = some g) : g ∈ l := by
  match l, h with
  | x :: xs, h =>
    simp only [jsReduceLatest, Option.some.injEq] at h
    rcases jsReduceLatest_mem_aux xs x with h' | h' <;> rw [h] at h'
    · rw [h']; exact List.mem_cons_self _ _
    · exact List.mem_cons_of_mem _ h'

theorem mem_gameWeeksOf {sb : Scoreboard} {w : Int} (h : w ∈ gameWeeksOf sb) :
    ∃ e ∈ sb.events, e.week = some w := by
  unfold gameWeeksOf at h
  rw [mem_jsSetDedup] at h
  exact List.mem_filterMap.mp (List.mem_filter.mp h).1

/-- The effective week computed by the `getEffectiveCurrentWeek` path equals
the one the `fetchFilteredCurrentWeekGames` path computes and returns: the
only textual difference is `setHours(getHours() + 3.5)` followed by adding
six hours of milliseconds versus a single `setHours(getHours() + 9.5)`, and
after `setHours` truncates the fractional hour both land 9 hours after the
latest previous-week kickoff. -/
theorem computeWeekA_eq_filteredWeek (st : NFLState) (sb : Scoreboard)
    (now : Nat) :
    computeWeekA st sb now = (fetchFilteredCompute st sb now).week := by
  simp only [computeWeekA, fetchFilteredCompute, jsSetHours_three_plus_six]

theorem storeLookup_insert {α : Type} (k : String) (e : CacheEntry α)
    (items : List (String × CacheEntry α)) :
    storeLookup k (storeInsert k e items) = some e := by
  induction items with
  | nil => simp [storeLookup, storeInsert, List.find?]
  | cons kv rest ih =>
    by_cases h : kv.1 = k
    · simpa [storeLookup, storeInsert, List.filter_cons, h] using ih
    · simp only [storeLookup, storeInsert, List.filter_cons] at *
      simp only [h, decide_not, decide_eq_true_eq]
      rw [if_pos (by simp [h])]
      simpa [List.find?_cons, h] using ih

theorem storeLookup_erase {α : Type} (k : String)
    (items : List (String × CacheEntry α)) :
    storeLookup k (storeErase k items) = none := by
  induction items with
  | nil => rfl
  | cons kv rest ih =>
    by_cases h : kv.1 = k
    · simpa [storeLookup, storeErase, List.filter_cons, h] using ih
    · simp only [storeLookup, storeErase, List.filter_cons] at *
      rw [if_pos (by simp [h])]
      simpa [List.find?_cons, h] using ih

theorem mergeStarter_cond_iff (e cand : PlayerLineup) :
    (e.playerId = cand.playerId ∧ e.isOpponent = cand.isOpponent ∧
        e.team = cand.team) ↔ entryKey e = entryKey cand := by
  simp [entryKey, Prod.ext_iff]

theorem mergeStarter_mem_key (cand : PlayerLineup) (l : List PlayerLineup)
    (x : PlayerLineup) (hx : x ∈ mergeStarter cand l) :
    entryKey x = entryKey cand ∨ ∃ y ∈ l, entryKey y = entryKey x := by
  induction l with
  | nil =>
    simp only [mergeStarter, List.mem_singleton] at hx
    exact Or.inl (by rw [hx])
  | cons e rest ih =>
    by_cases hc : e.playerId = cand.playerId ∧ e.isOpponent = cand.isOpponent ∧
        e.team = cand.team
    · simp only [mergeStarter, if_pos hc, List.mem_cons] at hx
      rcases hx with hx | hx
      · exact Or.inr ⟨e, List.mem_cons_self _ _, by subst hx; simp [entryKey]⟩
      · exact Or.inr ⟨x, List.mem_cons_of_mem _ hx, rfl⟩
    · simp only [mergeStarter, if_neg hc, List.mem_cons] at hx
      rcases hx with hx | hx
      · exact Or.inr ⟨e, List.mem_cons_self _ _, by rw [hx]⟩
      · rcases ih hx with h | ⟨y, hy, hky⟩
        · exact Or.inl h
        · exact Or.inr ⟨y, List.mem_cons_of_mem _ hy, hky⟩

theorem mergeStarter_good (cand : PlayerLineup)
    (hcand : cand.leagueIds.length = cand.leagueNames.length)
    (l : List PlayerLineup) (h : GoodLineups l) :
    GoodLineups (mergeStarter cand l) := by
  induction l with
  | nil =>
    refine ⟨List.pairwise_singleton _ _, ?_⟩
    intro e he
    simp only [mergeStarter, List.mem_singleton] at he
    rw [he]; exact hcand
  | cons e rest ih =>
    obtain ⟨hp, hl⟩ := h
    rw [List.pairwise_cons] at hp
    by_cases hc : e.playerId = cand.playerId ∧ e.isOpponent = cand.isOpponent ∧
        e.team = cand.team
    · simp only [mergeStarter, if_pos hc]
      constructor
      · rw [List.pairwise_cons]
        exact ⟨fun b hb => hp.1 b hb, hp.2⟩
      · intro x hx
        rcases List.mem_cons.mp hx with hx | hx
        · rw [hx]
          simp only [List.length_append]
          rw [hl e (List.mem_cons_self _ _), hcand]
        · exact hl x (List.mem_cons_of_mem _ hx)
    · simp only [mergeStarter, if_neg hc]
      have hrest : GoodLineups rest := ⟨hp.2, fun x hx => hl x (List.mem_cons_of_mem _ hx)⟩
      obtain ⟨ihp, ihl⟩ := ih hrest
      constructor
      · rw [List.pairwise_cons]
        refine ⟨?_, ihp⟩
        intro b hb
        rcases mergeStarter_mem_key cand rest b hb with hk | ⟨y, hy, hky⟩
        · rw [hk]
          exact fun hek => hc ((mergeStarter_cond_iff e cand).mpr hek)
        · rw [← hky]
          exact hp.1 y hy
      · intro x hx
        rcases List.mem_cons.mp hx with hx | hx
        · rw [hx]; exact hl e (List.mem_cons_self _ _)
        · exact ihl x hx

theorem addStarter_good (players : PlayerTable) (league : UserLeague)
    (isOpp : Bool) (acc : List PlayerLineup) (pid : String)
    (h : GoodLineups acc) : GoodLineups (addStarter players league isOpp acc pid) := by
  unfold addStarter
  split
  · cases playerLookup players pid with
    | none => exact h
    | some p => exact mergeStarter_good _ rfl _ h
  · exact h

theorem foldl_preserve {σ β : Type} (P : σ → Prop) (f : σ → β → σ)
    (hf : ∀ s b, P s → P (f s b)) :
    ∀ (l : List β) (s : σ), P s → P (l.foldl f s) := by
  intro l
  induction l with
  | nil => intro s h; exact h
  | cons b bs ih => intro s h; exact ih _ (hf s b h)

theorem processLeague_good (players : PlayerTable) (acc : List PlayerLineup)
    (d : LeagueData) (h : GoodLineups acc) :
    GoodLineups (processLeague players acc d) := by
  unfold processLeague
  have step : ∀ (isOpp : Bool) (starters : List String) (a : List PlayerLineup),
      GoodLineups a →
      GoodLineups (starters.foldl (addStarter players d.league isOpp) a) :=
    fun isOpp starters a ha =>
      foldl_preserve GoodLineups _ (fun s b hs => addStarter_good _ _ _ s b hs) starters a ha
  cases d.league.sleeper_user_id with
  | none => exact h
  | some uid =>
    dsimp only
    by_cases he : uid = ""
    · simpa [he] using h
    · rw [if_neg he]
      cases findUserRoster d.rosters uid with
      | none => exact h
      | some userRoster =>
        dsimp only
        have h1 : GoodLineups (match userRoster.starters with
            | some starters => starters.foldl (addStarter players d.league false) acc
            | none => acc) := by
          cases userRoster.starters with
          | none => exact h
          | some starters => exact step false starters acc h
        cases hopp : findOpponentRoster d.rosters d.matchups userRoster.roster_id with
        | none => exact h1
        | some opp =>
          dsimp only
          cases opp.starters with
          | none => exact h1
          | some starters => exact step true starters _ h1

theorem mergeStarter_filter_opp (cand : PlayerLineup) (l : List PlayerLineup)
    (hc : cand.isOpponent = false) :
    (mergeStarter cand l).filter (fun e => e.isOpponent) =
      l.filter (fun e => e.isOpponent) := by
  induction l with
  | nil => simp [mergeStarter, List.filter, hc]
  | cons e rest ih =>
    by_cases hcond : e.playerId = cand.playerId ∧ e.isOpponent = cand.isOpponent ∧
        e.team = cand.team
    · have he : e.isOpponent = false := by rw [hcond.2.1, hc]
      simp only [mergeStarter, if_pos hcond, List.filter_cons]
      rw [he]
      simp
    · simp only [mergeStarter, if_neg hcond, List.filter_cons]
      cases hop : e.isOpponent <;> simp [ih]

theorem addStarter_filter_opp (players : PlayerTable) (league : UserLeague)
    (acc : List PlayerLineup) (pid : String) :
    (addStarter players league false acc pid).filter (fun e => e.isOpponent) =
      acc.filter (fun e => e.isOpponent) := by
  unfold addStarter
  split
  · cases playerLookup players pid with
    | none => rfl
    | some p => exact mergeStarter_filter_opp _ _ rfl
  · rfl

theorem foldl_addStarter_filter_opp (players : PlayerTable)
    (league : UserLeague) (starters : List String) (acc : List PlayerLineup) :
    ((starters.foldl (addStarter players league false) acc).filter
        (fun e => e.isOpponent)) = acc.filter (fun e => e.isOpponent) := by
  induction starters generalizing acc with
  | nil => rfl
  | cons pid rest ih =>
    rw [List.foldl_cons, ih, addStarter_filter_opp]

theorem find?_stripped_roster (matchups : List SleeperMatchup) (rid : Int) :
    ((matchups.map (fun m =>
        (⟨m.roster_id, m.matchup_id, none⟩ : SleeperMatchup))).find?
          (fun m => m.roster_id = rid)) =
      (matchups.find? (fun m => m.roster_id = rid)).map
        (fun m => (⟨m.roster_id, m.matchup_id, none⟩ : SleeperMatchup)) := by
  rw [List.find?_map]
  rfl

theorem find?_stripped_opponent (matchups : List SleeperMatchup)
    (mid rid : Int) :
    ((matchups.map (fun m =>
        (⟨m.roster_id, m.matchup_id, none⟩ : SleeperMatchup))).find?
          (fun m => m.matchup_id = mid ∧ m.roster_id ≠ rid)) =
      (matchups.find? (fun m => m.matchup_id = mid ∧ m.roster_id ≠ rid)).map
        (fun m => (⟨m.roster_id, m.matchup_id, none⟩ : SleeperMatchup)) := by
  rw [List.find?_map]
  rfl

theorem findOpponentRoster_strip (rosters : List SleeperRoster)
    (matchups : List SleeperMatchup) (rid : Int) :
    findOpponentRoster rosters (matchups.map (fun m =>
        ⟨m.roster_id, m.matchup_id, none⟩)) rid =
      findOpponentRoster rosters matchups rid := by
  unfold findOpponentRoster
  rw [find?_stripped_roster]
  cases matchups.find? (fun m => m.roster_id = rid) with
  | none => rfl
  | some um =>
    dsimp only [Option.map_some']
    rw [find?_stripped_opponent]
    cases matchups.find? (fun m => m.matchup_id = um.matchup_id ∧ m.roster_id ≠ rid) with
    | none => rfl
    | some om => rfl

theorem processLeague_strip (players : PlayerTable) (acc : List PlayerLineup)
    (d : LeagueData) :
    processLeague players acc (stripMatchupStarters d) =
      processLeague players acc d := by
  unfold processLeague stripMatchupStarters
  dsimp only
  cases d.league.sleeper_user_id with
  | none => rfl
  | some uid =>
    dsimp only
    by_cases he : uid = ""
    · rw [if_pos he, if_pos he]
    · rw [if_neg he, if_neg he]
      cases findUserRoster d.rosters uid with
      | none => rfl
      | some userRoster =>
        dsimp only
        rw [findOpponentRoster_strip]

theorem fetchAllLineups_strip (players : PlayerTable)
    (datas : List LeagueData) :
    fetchAllLineups players (datas.map stripMatchupStarters) =
      fetchAllLineups players datas := by
  unfold fetchAllLineups
  rw [List.foldl_map]
  suffices h : ∀ (init : List PlayerLineup),
      datas.foldl (fun acc d => processLeague players acc (stripMatchupStarters d))
          init = datas.foldl (processLeague players) init from h []
  induction datas with
  | nil => intro init; rfl
  | cons d ds ih =>
    intro init
    rw [List.foldl_cons, List.foldl_cons, processLeague_strip]
    exact ih _

/-! Claim theorems. -/

/-- C10: starting from an empty week memo, for every pair of upstream
responses and every current time, the week returned by
`getEffectiveCurrentWeek` equals the week computed and returned by the
cache-miss path of `fetchFilteredCurrentWeekGames`, even though one path
adds 3.5 hours then 6 hours and the other adds 9.5 hours (both `setHours`
calls truncate the half hour). -/
theorem c10_week_paths_agree (st : NFLState) (sb : Scoreboard)
    (f2 : Except JsErr NFLState) (now nowCatch : Nat) :
    (getEffectiveCurrentWeekRun (.ok st) (.ok sb) f2 none now nowCatch).1 =
      .ok (fetchFilteredCompute st sb now).week := by
  simp only [getEffectiveCurrentWeekRun]
  rw [computeWeekA_eq_filteredWeek]

/-- C2: the effective grace threshold of `getEffectiveCurrentWeek` is 9
hours after the latest previous-week kickoff, not the 9.5 hours the code's
own comments (`3.5` game duration plus `6 hour delay`) intend:
`Date.setHours` truncates `getHours() + 3.5` to `getHours() + 3`.  With the
previous-week kickoff at epoch 0 and `now` exactly 9 hours later — which is
still strictly before kickoff + 9.5h — the resolver already returns the
candidate week 2 rather than week 1. -/
theorem c2_grace_window_truncated :
    (getEffectiveCurrentWeekRun (.ok ⟨some 2⟩)
        (.ok ⟨none, [⟨0, some 1⟩]⟩) (.ok ⟨some 2⟩) none
        (9 * 60 * 60 * 1000) (9 * 60 * 60 * 1000)).1 = .ok 2 ∧
      9 * 60 * 60 * 1000 < (0 : Nat) + (19 * 60 * 60 * 1000) / 2 ∧
      (2 : Int) ≠ 1 := by
  refine ⟨rfl, by norm_num, by norm_num⟩

/-- C9 (as stated, refuted): with the league provider declaring week 1 and a
scheduled event carrying week number 0, the resolver's grace window matches
that week-0 event (the `filter(Boolean)` guard protects only the
`gameWeeks` set, not the previous-week filter) and the resolver returns
`1 - 1 = 0`, which is not a positive integer. -/
theorem c9_counterexample_week_zero :
    (getEffectiveCurrentWeekRun (.ok ⟨some 1⟩)
        (.ok ⟨none, [⟨0, some 0⟩]⟩) (.ok ⟨some 1⟩) none 0 0).1 = .ok 0 ∧
      ¬ (1 : Int) ≤ 0 := by
  refine ⟨rfl, by norm_num⟩

/-- C9 (amended): the resolver's result is always one of the coerced league
provider week, a week present among the scheduled events, or the coerced
week minus one; it is positive provided the coerced provider week is at
least 1 and every week number carried by a scheduled event is at least 1. -/
theorem c9_week_positive (st : NFLState) (sb : Scoreboard)
    (f2 : Except JsErr NFLState) (now nowCatch : Nat)
    (h1 : 1 ≤ jsWeekOr1 st.week)
    (h2 : ∀ e ∈ sb.events, ∀ w, e.week = some w → 1 ≤ w) :
    (getEffectiveCurrentWeekRun (.ok st) (.ok sb) f2 none now nowCatch).1 =
        .ok (computeWeekA st sb now) ∧
      1 ≤ computeWeekA st sb now := by
  refine ⟨rfl, ?_⟩
  have hEff0 : 1 ≤
      (match sb.week with
        | some espnWeek =>
            if jsWeekOr1 st.week ∉ gameWeeksOf sb ∧ espnWeek ≠ 0 ∧
                espnWeek ∈ gameWeeksOf sb then espnWeek else jsWeekOr1 st.week
        | none => jsWeekOr1 st.week) := by
    cases hw : sb.week with
    | none => exact h1
    | some espnWeek =>
      by_cases hc : jsWeekOr1 st.week ∉ gameWeeksOf sb ∧ espnWeek ≠ 0 ∧
          espnWeek ∈ gameWeeksOf sb
      · simp only [if_pos hc]
        obtain ⟨e, he, hew⟩ := mem_gameWeeksOf hc.2.2
        exact h2 e he espnWeek hew
      · simp only [if_neg hc]; exact h1
  simp only [computeWeekA]
  cases hr : jsReduceLatest
      (sb.events.filter fun g => g.week = some (jsWeekOr1 st.week - 1)) with
  | none => exact hEff0
  | some latest =>
    have hmem := jsReduceLatest_mem hr
    have hlw : latest.week = some (jsWeekOr1 st.week - 1) :=
      of_decide_eq_true (List.mem_filter.mp hmem).2
    have hprev : (1 : Int) ≤ jsWeekOr1 st.week - 1 :=
      h2 latest (List.mem_filter.mp hmem).1 _ hlw
    by_cases hnow : now < jsSetHours latest.date
        (jsHourFromTime latest.date + 3) + 6 * 60 * 60 * 1000
    · simp only [if_pos hnow]; exact hprev
    · simp only [if_neg hnow]; exact hEff0

/-- C9 witness: a concrete input satisfying the amended hypotheses. -/
theorem c9_week_positive_witness :
    (getEffectiveCurrentWeekRun (.ok ⟨some 3⟩)
        (.ok ⟨some 3, [⟨0, some 2⟩, ⟨100, some 3⟩]⟩) (.ok ⟨some 3⟩)
        none 0 0).1 = .ok (computeWeekA ⟨some 3⟩ ⟨some 3, [⟨0, some 2⟩, ⟨100, some 3⟩]⟩ 0) ∧
      1 ≤ computeWeekA ⟨some 3⟩ ⟨some 3, [⟨0, some 2⟩, ⟨100, some 3⟩]⟩ 0 :=
  c9_week_positive ⟨some 3⟩ ⟨some 3, [⟨0, some 2⟩, ⟨100, some 3⟩]⟩
    (.ok ⟨some 3⟩) 0 0 (by norm_num [jsWeekOr1])
    (by intro e he w hw; simp at he
        rcases he with he | he <;> subst he <;> simp at hw <;> omega)

/-- C8: on a cache miss, if either of the two concurrent upstream fetches
fails, `getEffectiveCurrentWeek` re-fetches the league provider's declared
week once, memoizes it with the catch-time timestamp and returns it; if the
fallback fetch itself fails, that error propagates and the memo is left
empty. -/
theorem c8_fallback (f1 : Except JsErr NFLState) (fsb : Except JsErr Scoreboard)
    (f2 : Except JsErr NFLState) (now nowCatch : Nat)
    (hfail : (∃ e, f1 = .error e) ∨ ∃ e, fsb = .error e) :
    (∀ st2, f2 = .ok st2 →
        getEffectiveCurrentWeekRun f1 fsb f2 none now nowCatch =
          (.ok (jsWeekOr1 st2.week), some ⟨nowCatch, jsWeekOr1 st2.week⟩)) ∧
      (∀ e, f2 = .error e →
        getEffectiveCurrentWeekRun f1 fsb f2 none now nowCatch =
          (.error e, none)) := by
  constructor
  · intro st2 h2
    subst h2
    rcases hfail with ⟨e, he⟩ | ⟨e, he⟩ <;> subst he
    · rfl
    · cases f1 <;> rfl
  · intro e2 h2
    subst h2
    rcases hfail with ⟨e, he⟩ | ⟨e, he⟩ <;> subst he
    · rfl
    · cases f1 <;> rfl

/-- C8 witness: a concrete failing first fetch with a succeeding fallback
and a concrete failing fallback. -/
theorem c8_fallback_witness :
    getEffectiveCurrentWeekRun (.error .other) (.ok ⟨none, []⟩)
        (.ok ⟨some 4⟩) none 5 7 = (.ok 4, some ⟨7, 4⟩) ∧
      getEffectiveCurrentWeekRun (.ok ⟨some 2⟩) (.error .other)
        (.error .other) none 5 7 = (.error .other, none) :=
  ⟨by
      have h := (c8_fallback (.error .other) (.ok ⟨none, []⟩)
        (.ok ⟨some 4⟩) 5 7 (Or.inl ⟨.other, rfl⟩)).1 ⟨some 4⟩ rfl
      simpa [jsWeekOr1] using h,
    (c8_fallback (.ok ⟨some 2⟩) (.error .other) (.error .other) 5 7
      (Or.inr ⟨.other, rfl⟩)).2 .other rfl⟩

/-- C5 (as stated, refuted): on a fresh store, `set(k, v)` immediately
followed by `get(k)` returns `null`, not `v`: the physical write is
debounced 500 ms and has not happened yet when `get` reads the store. -/
theorem c5_counterexample_debounced_write :
    (storageGet 0 "k" (storageSet 0 "k" (7 : Nat) ⟨[], [], 0⟩)).1 = none ∧
      (none : Option Nat) ≠ some 7 := by
  exact ⟨rfl, by decide⟩

/-- C5 (amended): `set(k, v)` at time `t` only schedules the write; a `get`
before the timer fires still sees the old store (here: a store without
`k`).  Once the debounced write has fired, `get(k)` returns `v` while at
most 30 minutes have elapsed since the `set` call (the envelope timestamp
is captured at `set` time), and once more than 30 minutes have elapsed it
returns `null` and removes the entry from the store. -/
theorem c5_set_get_roundtrip {α : Type} (k : String) (v : α)
    (s : StorageState α) (t tg : Nat) (hpend : s.pending = []) :
    (storeLookup k s.items = none →
        (storageGet t k (storageSet t k v s)).1 = none) ∧
      ((tg - t ≤ CACHE_DURATION →
          (storageGet tg k (flushDue oracleOk (t + DEBOUNCE_DELAY)
            (storageSet t k v s))).1 = some v) ∧
        (tg - t > CACHE_DURATION →
          (storageGet tg k (flushDue oracleOk (t + DEBOUNCE_DELAY)
              (storageSet t k v s))).1 = none ∧
            storeLookup k (storageGet tg k (flushDue oracleOk (t + DEBOUNCE_DELAY)
              (storageSet t k v s))).2.items = none)) := by
  have hflush : flushDue oracleOk (t + DEBOUNCE_DELAY) (storageSet t k v s) =
      ⟨storeInsert k ⟨t, v⟩ s.items, [], s.attempts + 1⟩ := by
    simp [flushDue, storageSet, fireCallback, trySetItem, oracleOk, hpend]
  refine ⟨?_, ?_, ?_⟩
  · intro hmiss
    simp [storageGet, storageSet, hmiss]
  · intro hle
    rw [hflush]
    simp only [storageGet, storeLookup_insert]
    rw [if_neg (by omega)]
  · intro hgt
    rw [hflush]
    simp only [storageGet, storeLookup_insert]
    rw [if_pos (by omega)]
    exact ⟨rfl, storeLookup_erase k _⟩

/-- C5 witness: the amended round trip at a concrete key and value, checked
immediately after the set, after the flush within the TTL, and past the
TTL. -/
theorem c5_set_get_roundtrip_witness :
    (storageGet 0 "a" (storageSet 0 "a" (5 : Nat) ⟨[], [], 0⟩)).1 = none ∧
      (storageGet 1000 "a" (flushDue oracleOk (0 + DEBOUNCE_DELAY)
        (storageSet 0 "a" (5 : Nat) ⟨[], [], 0⟩))).1 = some 5 ∧
      (storageGet 1800001 "a" (flushDue oracleOk (0 + DEBOUNCE_DELAY)
          (storageSet 0 "a" (5 : Nat) ⟨[], [], 0⟩))).1 = none :=
  ⟨(c5_set_get_roundtrip "a" 5 ⟨[], [], 0⟩ 0 1000 rfl).1 rfl,
    (c5_set_get_roundtrip "a" 5 ⟨[], [], 0⟩ 0 1000 rfl).2.1 (by decide),
    ((c5_set_get_roundtrip "a" 5 ⟨[], [], 0⟩ 0 1800001 rfl).2.2 (by decide)).1⟩

/-- C6 (as stated, refuted): for the ordinary key `redzone_games`, two
consecutive quota failures do not raise an error: `setImmediate` returns
normally with the write skipped (the catch block only rethrows non-quota
retry errors). -/
theorem c6_counterexample_second_quota_swallowed :
    storageSetImmediate (fun _ => some .quota) 0 "redzone_games" (42 : Nat)
        ⟨[], [], 0⟩ = .ok ⟨[], [], 2⟩ ∧
      "redzone_games" ≠ "redzone_sleeper_players" := by
  exact ⟨rfl, by decide⟩

/-- C6 (amended): on a quota failure the cache layer evicts expired entries
and retries exactly once.  If the retry fails with a quota error again, the
payload is skipped without error for every key (the large player-reference
key merely logs before returning); only a non-quota failure — on the first
attempt or on the retry — is raised to the caller. -/
theorem c6_quota_backoff {α : Type} (oracle : Nat → Option JsErr)
    (s : StorageState α) (now : Nat) (k : String) (v : α) :
    (oracle s.attempts = some .other →
        storageSetImmediate oracle now k v s = .error .other) ∧
      (oracle s.attempts = some .quota →
        (oracle (s.attempts + 1) = some .quota →
            storageSetImmediate oracle now k v s =
              .ok ⟨storageClearExpiredItems now s.items, s.pending,
                s.attempts + 2⟩) ∧
          (oracle (s.attempts + 1) = some .other →
            storageSetImmediate oracle now k v s = .error .other)) := by
  refine ⟨?_, fun h1 => ⟨?_, ?_⟩⟩
  · intro h1
    simp [storageSetImmediate, trySetItem, h1]
  · intro h2
    simp [storageSetImmediate, trySetItem, h1, h2]
  · intro h2
    simp [storageSetImmediate, trySetItem, h1, h2]

/-- C6 witness: the three failure shapes at concrete oracles on the
ordinary key `redzone_games`. -/
theorem c6_quota_backoff_witness :
    storageSetImmediate (fun _ => some .other) 0 "redzone_games" (1 : Nat)
        ⟨[], [], 0⟩ = .error .other ∧
      storageSetImmediate (fun _ => some .quota) 0 "redzone_games" (1 : Nat)
          ⟨[], [], 0⟩ = .ok ⟨[], [], 2⟩ ∧
      storageSetImmediate (fun n => if n = 0 then some .quota else some .other)
          0 "redzone_games" (1 : Nat) ⟨[], [], 0⟩ = .error .other :=
  ⟨(c6_quota_backoff (fun _ => some .other) ⟨[], [], 0⟩ 0 "redzone_games" 1).1 rfl,
    by
      have h := ((c6_quota_backoff (fun _ => some .quota) ⟨[], [], 0⟩ 0
        "redzone_games" 1).2 rfl).1 rfl
      simpa [storageClearExpiredItems] using h,
    ((c6_quota_backoff (fun n => if n = 0 then some .quota else some .other)
      ⟨[], [], 0⟩ 0 "redzone_games" 1).2 rfl).2 rfl⟩

/-- C1: for every aggregation run, no two output entries share the same
`(playerId, isOpponent, team)` triple and every entry has as many league
ids as league names; and in the concrete two-league dedup scenario the
aggregator yields exactly one entry for `"P"` with two league ids. -/
theorem c1_aggregator_invariants (players : PlayerTable)
    (datas : List LeagueData) :
    ((fetchAllLineups players datas).Pairwise
          (fun a b => entryKey a ≠ entryKey b) ∧
        ∀ e ∈ fetchAllLineups players datas,
          e.leagueIds.length = e.leagueNames.length) ∧
      (fetchAllLineups c1players c1datas).map
          (fun e => (e.playerId, e.leagueIds.length)) = [("P", 2)] := by
  constructor
  · exact foldl_preserve GoodLineups (processLeague players)
      (fun s b hs => processLeague_good players s b hs) datas []
      ⟨List.Pairwise.nil, by intro e he; cases he⟩
  · rfl

/-- C1 witness: the invariants evaluated on the concrete dedup scenario. -/
theorem c1_aggregator_invariants_witness :
    (fetchAllLineups c1players c1datas).map
        (fun e => (e.playerId, e.leagueIds.length)) = [("P", 2)] ∧
      ∀ e ∈ fetchAllLineups c1players c1datas,
        e.leagueIds.length = e.leagueNames.length :=
  ⟨(c1_aggregator_invariants c1players c1datas).2,
    (c1_aggregator_invariants c1players c1datas).1.2⟩

/-- C7: a league with no stored Sleeper user id, or whose user roster is
not found, contributes nothing to the aggregation; and a league whose user
roster has no matchup entry for the week (a bye) resolves its opponent
roster to `null` and contributes only `isOpponent = false` entries.  The
aggregator is a total function, so none of these cases throws. -/
theorem c7_degraded_leagues (players : PlayerTable)
    (pre post : List LeagueData) (d : LeagueData) :
    (jsTruthyStr d.league.sleeper_user_id = false →
        fetchAllLineups players (pre ++ d :: post) =
          fetchAllLineups players (pre ++ post)) ∧
      (∀ uid, d.league.sleeper_user_id = some uid → uid ≠ "" →
        findUserRoster d.rosters uid = none →
        fetchAllLineups players (pre ++ d :: post) =
          fetchAllLineups players (pre ++ post)) ∧
      (∀ uid ur, d.league.sleeper_user_id = some uid → uid ≠ "" →
        findUserRoster d.rosters uid = some ur →
        d.matchups.find? (fun m => m.roster_id = ur.roster_id) = none →
        findOpponentRoster d.rosters d.matchups ur.roster_id = none ∧
          ∀ acc, (processLeague players acc d).filter (fun e => e.isOpponent) =
            acc.filter (fun e => e.isOpponent)) := by
  have hskip : ∀ (hstep : ∀ acc, processLeague players acc d = acc),
      fetchAllLineups players (pre ++ d :: post) =
        fetchAllLineups players (pre ++ post) := by
    intro hstep
    unfold fetchAllLineups
    rw [List.foldl_append, List.foldl_append, List.foldl_cons, hstep]
  refine ⟨?_, ?_, ?_⟩
  · intro hfalsy
    refine hskip fun acc => ?_
    unfold processLeague
    cases hu : d.league.sleeper_user_id with
    | none => rfl
    | some uid =>
      dsimp only
      rw [if_pos]
      rw [hu] at hfalsy
      simpa [jsTruthyStr] using hfalsy
  · intro uid hu hne hur
    refine hskip fun acc => ?_
    unfold processLeague
    rw [hu]
    dsimp only
    rw [if_neg hne, hur]
  · intro uid ur hu hne hur hmat
    have hopp : findOpponentRoster d.rosters d.matchups ur.roster_id = none := by
      unfold findOpponentRoster
      rw [hmat]
    refine ⟨hopp, fun acc => ?_⟩
    unfold processLeague
    rw [hu]
    dsimp only
    rw [if_neg hne, hur]
    dsimp only
    rw [hopp]
    cases ur.starters with
    | none => rfl
    | some starters => exact foldl_addStarter_filter_opp _ _ _ _

/-- C7 witness: the three degraded cases at concrete leagues (no stored
user id; stored id with no matching roster; a bye with no matchup entry). -/
theorem c7_degraded_leagues_witness :
    (fetchAllLineups c1players [⟨⟨"L0", none, none, none⟩, [], [], []⟩] =
        fetchAllLineups c1players []) ∧
      (fetchAllLineups c1players [⟨⟨"L0", some "U9", none, none⟩,
          [⟨1, "U1", none⟩], [], []⟩] = fetchAllLineups c1players []) ∧
      (findOpponentRoster [⟨1, "U1", some ["P"]⟩] [] 1 = none ∧
        ∀ acc, (processLeague c1players acc
            ⟨⟨"L0", some "U1", none, none⟩, [⟨1, "U1", some ["P"]⟩], [], []⟩).filter
              (fun e => e.isOpponent) = acc.filter (fun e => e.isOpponent)) :=
  ⟨(c7_degraded_leagues c1players [] []
      ⟨⟨"L0", none, none, none⟩, [], [], []⟩).1 rfl,
    (c7_degraded_leagues c1players [] []
      ⟨⟨"L0", some "U9", none, none⟩, [⟨1, "U1", none⟩], [], []⟩).2.1
      "U9" rfl (by decide) rfl,
    (c7_degraded_leagues c1players [] []
      ⟨⟨"L0", some "U1", none, none⟩, [⟨1, "U1", some ["P"]⟩], [], []⟩).2.2
      "U1" ⟨1, "U1", some ["P"]⟩ rfl (by decide) rfl rfl⟩

/-- C4 (as stated, refuted): the cross-league lineup aggregator builds its
entries from the roster-level starters list even when the user's matchup
record carries its own starters list: with matchup starters `["P1"]` and
roster starters `["P2"]` the output holds `"P2"`, not `"P1"`. -/
theorem c4_counterexample_roster_starters :
    (fetchAllLineups c4players [c4data]).map (fun e => e.playerId) = ["P2"] ∧
      c4data.matchups.map (fun m => m.starters) = [some ["P1"]] ∧
      (["P2"] : List String) ≠ ["P1"] := by
  exact ⟨rfl, rfl, by decide⟩

/-- C4 (amended): only the all-leagues per-league view prefers the
matchup-level starters list, falling back to the roster-level list when the
user's matchup record is absent (or carries no list); the cross-league
aggregator of the RedZone view reads no matchup starters at all — its
output is unchanged when every matchup-level starters list is forgotten. -/
theorem c4_starter_source (players : PlayerTable) (d : LeagueData)
    (uid : String) (ur : SleeperRoster)
    (hu : d.league.sleeper_user_id = some uid) (hne : uid ≠ "")
    (hur : findUserRoster d.rosters uid = some ur) :
    (∀ um s, d.matchups.find? (fun m => m.roster_id = ur.roster_id) = some um →
        um.starters = some s →
        (fetchLeagueLineup players d).map (fun ll => ll.userRoster.starters) =
          some (buildStarterData players (some s))) ∧
      (d.matchups.find? (fun m => m.roster_id = ur.roster_id) = none →
        (fetchLeagueLineup players d).map (fun ll => ll.userRoster.starters) =
          some (buildStarterData players ur.starters)) ∧
      ∀ (ps : PlayerTable) (ds : List LeagueData),
        fetchAllLineups ps (ds.map stripMatchupStarters) =
          fetchAllLineups ps ds := by
  refine ⟨?_, ?_, fun ps ds => fetchAllLineups_strip ps ds⟩
  · intro um s hum hs
    unfold fetchLeagueLineup
    rw [hu]
    dsimp only
    rw [if_neg hne, hur]
    dsimp only
    rw [hum]
    dsimp only [Option.bind]
    rw [hs]
    rfl
  · intro hum
    unfold fetchLeagueLineup
    rw [hu]
    dsimp only
    rw [if_neg hne, hur]
    dsimp only
    rw [hum]
    rfl

/-- C4 witness: the preference and the fallback at concrete leagues, and
the aggregator's independence from matchup starters on the concrete
counterexample league. -/
theorem c4_starter_source_witness :
    (fetchLeagueLineup c4players c4data).map (fun ll => ll.userRoster.starters) =
        some (buildStarterData c4players (some ["P1"])) ∧
      (fetchLeagueLineup c4players
          ⟨⟨"L2", some "U1", none, none⟩, [⟨1, "U1", some ["P2"]⟩], [], []⟩).map
          (fun ll => ll.userRoster.starters) =
        some (buildStarterData c4players (some ["P2"])) ∧
      fetchAllLineups c4players ([c4data].map stripMatchupStarters) =
        fetchAllLineups c4players [c4data] :=
  ⟨(c4_starter_source c4players c4data "U1" ⟨1, "U1", some ["P2"]⟩ rfl
      (by decide) rfl).1 ⟨1, 10, some ["P1"]⟩ ["P1"] rfl rfl,
    (c4_starter_source c4players
        ⟨⟨"L2", some "U1", none, none⟩, [⟨1, "U1", some ["P2"]⟩], [], []⟩
        "U1" ⟨1, "U1", some ["P2"]⟩ rfl (by decide) rfl).2.1 rfl,
    (c4_starter_source c4players c4data "U1" ⟨1, "U1", some ["P2"]⟩ rfl
      (by decide) rfl).2.2 c4players [c4data]⟩

/-- C3 (as stated, refuted): with three games all marked invisible the
filter returns the empty list, not the unfiltered games (the component then
renders its dedicated empty state; the only all-games fallback is the
empty-config branch). -/
theorem c3_counterexample_all_invisible :
    applyGameConfiguration [⟨"g1"⟩, ⟨"g2"⟩, ⟨"g3"⟩]
        [⟨"g1", false, 0, none⟩, ⟨"g2", false, 1, none⟩, ⟨"g3", false, 2, none⟩] =
        [] ∧
      ([] : List ESPNGameL) ≠ [⟨"g1"⟩, ⟨"g2"⟩, ⟨"g3"⟩] := by
  refine ⟨?_, by decide⟩
  unfold applyGameConfiguration
  rw [if_neg (by decide), if_neg (by decide)]
  have hfil : List.filter (fun gc => gc.2.isVisible)
      (([⟨"g1"⟩, ⟨"g2"⟩, ⟨"g3"⟩] : List ESPNGameL).map (fun game =>
        (game, resolveConfig [⟨"g1"⟩, ⟨"g2"⟩, ⟨"g3"⟩]
          [⟨"g1", false, 0, none⟩, ⟨"g2", false, 1, none⟩, ⟨"g3", false, 2, none⟩]
          game))) = [] := by decide
  rw [hfil, List.mergeSort_nil]
  rfl

/-- C3 (amended): when the resolved configs mark every game invisible and a
config exists, the filter returns the empty list; the fall-back to the full
unfiltered game list happens only when the config list itself is empty. -/
theorem c3_filter_empty_result (games : List ESPNGameL)
    (gameConfig : List GameConfig) :
    (gameConfig ≠ [] →
        (∀ g ∈ games, (resolveConfig games gameConfig g).isVisible = false) →
        applyGameConfiguration games gameConfig = []) ∧
      (games ≠ [] → gameConfig = [] →
        applyGameConfiguration games gameConfig = games) := by
  constructor
  · intro hcfg hinv
    unfold applyGameConfiguration
    by_cases hg : games.length = 0
    · rw [if_pos hg]
    · rw [if_neg hg, if_neg (by simpa using hcfg)]
      have hfil : (games.map (fun game =>
          (game, resolveConfig games gameConfig game))).filter
            (fun gc => gc.2.isVisible) = [] := by
        rw [List.filter_eq_nil]
        intro gc hgc
        obtain ⟨g, hgmem, hge⟩ := List.mem_map.mp hgc
        rw [← hge]
        simp [hinv g hgmem]
      rw [hfil, List.mergeSort_nil]
      rfl
  · intro hgames hcfg
    unfold applyGameConfiguration
    rw [if_neg (by simpa using hgames), if_pos (by simp [hcfg])]

/-- C3 witness: the amended behaviour at concrete game lists. -/
theorem c3_filter_empty_result_witness :
    applyGameConfiguration [⟨"g1"⟩, ⟨"g2"⟩]
        [⟨"g1", false, 0, none⟩, ⟨"g2", false, 1, none⟩] = [] ∧
      applyGameConfiguration [⟨"g1"⟩, ⟨"g2"⟩] [] = [⟨"g1"⟩, ⟨"g2"⟩] :=
  ⟨(c3_filter_empty_result [⟨"g1"⟩, ⟨"g2"⟩]
        [⟨"g1", false, 0, none⟩, ⟨"g2", false, 1, none⟩]).1 (by decide)
      (by decide),
    (c3_filter_empty_result [⟨"g1"⟩, ⟨"g2"⟩] []).2 (by decide) rfl⟩

end RedZone
